import Mathlib

/-!
Shallow embedding of the fuel-credit backend (`main.py` together with the
pydantic models of `schemas.py`): the customer ledger, pump-session
authorization, liter estimation and dispense confirmation.

Modelling choices:
* Monetary amounts and liters are rationals (`ℚ`); the source's
  `round(x, 2)` is `round2`, two-decimal rounding with ties to even
  (Python's `round` semantics on exact values).
* Time is a natural number of microseconds since the epoch (Python
  `datetime` comparisons are microsecond-granular, while the receipt
  number truncates `timestamp()` to whole seconds via `int`).
* Each HTTP handler is a function `State → ... → State × Resp α`: the
  returned state records every database write the handler performed
  before returning or raising.  `HTTPException` raises are `Resp.httpError`
  (the handlers perform no writes before raising those); a pydantic
  validation failure while constructing a record is `Resp.validationError`,
  and there the returned state keeps the writes already issued.
* The random token of `start_pump_session` (`os.urandom(6).hex()`) is an
  explicit argument.
-/

namespace FuelCredit

/-- Round to the nearest integer, ties to even — the behaviour of Python's
`round` on exact decimal values. -/
def roundHalfEven (q : ℚ) : ℤ :=
  let f := ⌊q⌋
  let r := q - f
  if r < 1/2 then f
  else if 1/2 < r then f + 1
  else if 2 ∣ f then f else f + 1

/-- `round(x, 2)` of the source: round to two decimal places. -/
def round2 (q : ℚ) : ℚ := (roundHalfEven (q * 100) : ℚ) / 100

/-- `FUEL_PRICES` constant of `main.py` (price per liter by grade). -/
def FUEL_PRICES : String → Option ℚ
  | "G91" => some (218/100)
  | "G95" => some (233/100)
  | "Diesel" => some (166/100)
  | _ => none

/-- `Customer` document (schemas.py); `id` stands for the Mongo `_id`. -/
structure Customer where
  id : String
  name : String
  phone : String
  pin : String
  balance : ℚ
  active : Bool
deriving DecidableEq, Repr

/-- `CreditEvent` document (schemas.py). -/
structure CreditEvent where
  customer_id : String
  amount : ℚ
  note : Option String
deriving DecidableEq, Repr

/-- `FuelTransaction` document (schemas.py). -/
structure FuelTransaction where
  customer_id : String
  grade : String
  liters : ℚ
  price_per_liter : ℚ
  total : ℚ
  pump_id : String
  status : String
  receipt_no : String
deriving DecidableEq, Repr

/-- `PumpSession` document (schemas.py); `expires_at` in microseconds. -/
structure PumpSession where
  token : String
  customer_id : String
  pump_id : String
  expires_at : ℕ
  used : Bool
deriving DecidableEq, Repr

/-- The four MongoDB collections the handlers touch. -/
structure State where
  customers : List Customer
  creditevents : List CreditEvent
  fueltransactions : List FuelTransaction
  pumpsessions : List PumpSession
deriving DecidableEq, Repr

/-- Handler outcome: a JSON response, an `HTTPException`, or an uncaught
pydantic `ValidationError` (HTTP 500) raised while building a record. -/
inductive Resp (α : Type) where
  | ok (val : α)
  | httpError (status : ℕ) (detail : String)
  | validationError
deriving DecidableEq, Repr

/-- `db["customer"].find_one({"_id": ...})`: first customer with this id. -/
def findCustomer (st : State) (cid : String) : Option Customer :=
  st.customers.find? (fun c => c.id == cid)

/-- `db["customer"].update_one({"_id": ...}, {"$set": {"balance": nb}})`:
update the balance of the first customer with this id. -/
def updateFirstCustomer : List Customer → String → ℚ → List Customer
  | [], _, _ => []
  | c :: rest, cid, nb =>
    if c.id == cid then { c with balance := nb } :: rest
    else c :: updateFirstCustomer rest cid nb

/-- `db["pumpsession"].find_one({"token": ...})`: first session with this
token. -/
def findSession (st : State) (tok : String) : Option PumpSession :=
  st.pumpsessions.find? (fun s => s.token == tok)

/-- `db["pumpsession"].update_one({"_id": ps["_id"]}, {"$set": {"used": True}})`
where `ps` is the first session with this token. -/
def consumeFirstSession : List PumpSession → String → List PumpSession
  | [], _ => []
  | s :: rest, tok =>
    if s.token == tok then { s with used := true } :: rest
    else s :: consumeFirstSession rest tok

/-- Response body of `topup`. -/
structure TopUpResult where
  customer_id : String
  balance : ℚ
deriving DecidableEq, Repr

/-- `topup` handler (`POST /api/owner/customers/{customer_id}/topup`). -/
def topup (st : State) (cid : String) (amount : ℚ) (note : Option String) :
    State × Resp TopUpResult :=
  if amount ≤ 0 then (st, .httpError 400 "Amount must be positive")
  else
    match findCustomer st cid with
    | none => (st, .httpError 404 "Customer not found")
    | some cust =>
      (⟨updateFirstCustomer st.customers cid (cust.balance + amount),
        st.creditevents ++ [⟨cid, amount, note⟩],
        st.fueltransactions, st.pumpsessions⟩,
       .ok ⟨cid, cust.balance + amount⟩)

/-- Response body of `start_pump_session`. -/
structure StartSessionResult where
  token : String
  expires_in_sec : ℕ
deriving DecidableEq, Repr

/-- `start_pump_session` handler
(`POST /api/customer/{customer_id}/start-session`); `tok` is the random
token drawn by `os.urandom(6).hex()`, `now` the current time in
microseconds; `expires_at = now + timedelta(minutes=5)`. -/
def start_pump_session (st : State) (now : ℕ) (tok : String)
    (cid : String) (pump_id : String) : State × Resp StartSessionResult :=
  match findCustomer st cid with
  | none => (st, .httpError 404 "Customer not found")
  | some _ =>
    (⟨st.customers, st.creditevents, st.fueltransactions,
      st.pumpsessions ++ [⟨tok, cid, pump_id, now + 300 * 1000000, false⟩]⟩,
     .ok ⟨tok, 300⟩)

/-- Response body of `calc_liters`. -/
structure CalcLitersResult where
  grade : String
  price : ℚ
  max_liters : ℚ
deriving DecidableEq, Repr

/-- `calc_liters` handler (`POST /api/customer/{customer_id}/calc-liters`):
`max_liters = round(balance / price, 2)`; performs no database write, so the
state component of the result is always the input state. -/
def calc_liters (st : State) (cid : String) (grade : String) :
    State × Resp CalcLitersResult :=
  match findCustomer st cid with
  | none => (st, .httpError 404 "Customer not found")
  | some cust =>
    match FUEL_PRICES grade with
    | none => (st, .httpError 400 "Invalid grade")
    | some price => (st, .ok ⟨grade, price, round2 (cust.balance / price)⟩)

/-- Response body of `confirm_dispense`. -/
structure ConfirmResult where
  customer_id : String
  new_balance : ℚ
  total : ℚ
  grade : String
  liters : ℚ
  price_per_liter : ℚ
  receipt_no : String
deriving DecidableEq, Repr

/-- `confirm_dispense` handler (`POST /api/dispense/confirm`), in the
source's order: session lookup by token, used check, expiry check
(`expires_at < now`), customer lookup, grade lookup,
`total = round(liters * price, 2)`, insufficient-balance check
(`total > balance`), balance update to `round(balance - total, 2)`,
`FuelTransaction(...)` construction — whose pydantic constraints
`liters > 0`, `price_per_liter > 0`, `total > 0` raise a
`ValidationError` after the balance was already written — then the
transaction insert and finally marking the session used.  The receipt
number is `"RX" + str(int(now.timestamp()))`, i.e. the epoch second. -/
def confirm_dispense (st : State) (now : ℕ) (tok : String) (liters : ℚ)
    (grade : String) : State × Resp ConfirmResult :=
  match findSession st tok with
  | none => (st, .httpError 404 "Session not found")
  | some ps =>
    if ps.used then (st, .httpError 400 "Session already used")
    else if ps.expires_at < now then (st, .httpError 400 "Session expired")
    else
      match findCustomer st ps.customer_id with
      | none => (st, .httpError 404 "Customer not found")
      | some cust =>
        match FUEL_PRICES grade with
        | none => (st, .httpError 400 "Invalid grade")
        | some price =>
          if cust.balance < round2 (liters * price) then
            (st, .httpError 400 "Insufficient balance")
          else
            if 0 < liters ∧ 0 < price ∧ 0 < round2 (liters * price) then
              (⟨updateFirstCustomer st.customers ps.customer_id
                  (round2 (cust.balance - round2 (liters * price))),
                st.creditevents,
                st.fueltransactions ++
                  [⟨ps.customer_id, grade, liters, price,
                    round2 (liters * price), ps.pump_id, "confirmed",
                    "RX" ++ toString (now / 1000000)⟩],
                consumeFirstSession st.pumpsessions tok⟩,
               .ok ⟨ps.customer_id,
                    round2 (cust.balance - round2 (liters * price)),
                    round2 (liters * price), grade, liters, price,
                    "RX" ++ toString (now / 1000000)⟩)
            else
              (⟨updateFirstCustomer st.customers ps.customer_id
                  (round2 (cust.balance - round2 (liters * price))),
                st.creditevents, st.fueltransactions, st.pumpsessions⟩,
               .validationError)

/-! Concrete states used by the scenario theorems. -/

/-- A customer with balance 50.00, active. -/
def alice : Customer := ⟨"cust1", "Alice", "0500000000", "1234", 50, true⟩

/-- An unused session for `alice` on pump `pump1`, far from expiry. -/
def sessA : PumpSession := ⟨"tokA", "cust1", "pump1", 1000000000000000, false⟩

/-- A second unused session for `alice` on pump `pump2`. -/
def sessB : PumpSession := ⟨"tokB", "cust1", "pump2", 1000000000000000, false⟩

/-- State with `alice` and her session `sessA`. -/
def baseState : State := ⟨[alice], [], [], [sessA]⟩

/-- State with `alice` and two outstanding sessions. -/
def twoSessState : State := ⟨[alice], [], [], [sessA, sessB]⟩

/-- An unused session whose expiry instant is exactly `2000000` μs. -/
def sessAtBoundary : PumpSession := ⟨"tokE", "cust1", "pump1", 2000000, false⟩

/-- State with `alice` and the boundary-expiry session. -/
def boundaryState : State := ⟨[alice], [], [], [sessAtBoundary]⟩

/-- An existing but deactivated customer. -/
def bob : Customer := ⟨"cust2", "Bob", "0501111111", "9999", 0, false⟩

/-- State containing only the inactive customer `bob`. -/
def inactiveState : State := ⟨[bob], [], [], []⟩

/-- The state after confirming `sessA` out of `twoSessState`. -/
def midState : State :=
  ⟨[{ alice with balance := 141/5 }], [],
   [⟨"cust1", "G91", 10, 109/50, 109/5, "pump1", "confirmed", "RX0"⟩],
   [{ sessA with used := true }, sessB]⟩

/-- The state after confirming `sessA` out of `baseState`. -/
def afterState : State :=
  ⟨[{ alice with balance := 141/5 }], [],
   [⟨"cust1", "G91", 10, 109/50, 109/5, "pump1", "confirmed", "RX0"⟩],
   [{ sessA with used := true }]⟩

/-- A customer whose balance 5.00 cannot cover 10 liters of G91. -/
def poorCustomer : Customer := ⟨"cust3", "Carol", "0502222222", "4321", 5, true⟩

/-- An unused session for `poorCustomer`, far from expiry. -/
def sessP : PumpSession := ⟨"tokP", "cust3", "pump1", 1000000000000000, false⟩

/-- State with `poorCustomer` and her session. -/
def poorState : State := ⟨[poorCustomer], [], [], [sessP]⟩

/-- The two balance-mutating core operations: `Credit` (the `topup`
handler) and `Confirm` (the `confirm_dispense` handler). -/
inductive Op where
  | credit (cid : String) (amount : ℚ) (note : Option String)
  | confirm (now : ℕ) (tok : String) (liters : ℚ) (grade : String)

/-- Run one operation, keeping only the state it leaves behind. -/
def applyOp (st : State) : Op → State
  | .credit cid amount note => (topup st cid amount note).1
  | .confirm now tok liters grade => (confirm_dispense st now tok liters grade).1

/-- Every stored customer has a non-negative balance. -/
def balancesNonneg (st : State) : Prop := ∀ c ∈ st.customers, 0 ≤ c.balance

/-- A concrete operation sequence: one top-up, then one confirmation. -/
def c3Ops : List Op := [Op.credit "cust1" 20 none, Op.confirm 500 "tokA" 10 "G91"]

/-! Helper lemmas. -/

/-- Marking the first token-match used preserves what a token lookup finds:
it returns the same session with `used := true`. -/
theorem findSession_consume (ss : List PumpSession) (tok : String) (ps : PumpSession)
    (h : ss.find? (fun s => s.token == tok) = some ps) :
    (consumeFirstSession ss tok).find? (fun s => s.token == tok) =
      some { ps with used := true } := by
  induction ss with
  | nil => simp at h
  | cons s rest ih =>
    by_cases hst : (s.token == tok) = true
    · simp only [List.find?_cons, hst] at h
      injection h with h
      subst h
      unfold consumeFirstSession
      rw [if_pos hst]
      simp only [List.find?_cons, hst]
    · simp only [List.find?_cons, hst] at h
      unfold consumeFirstSession
      rw [if_neg hst]
      simp only [List.find?_cons, hst]
      exact ih h

/-- A confirm against a session already marked used is rejected with
"Session already used" and leaves the state unchanged. -/
theorem confirm_used_rejected (st : State) (now : ℕ) (tok : String) (l : ℚ)
    (g : String) (ps : PumpSession) (hs : findSession st tok = some ps)
    (hu : ps.used = true) :
    confirm_dispense st now tok l g =
      (st, Resp.httpError 400 "Session already used") := by
  simp [confirm_dispense, hs, hu]

/-- Two-decimal rounding of a non-negative rational is non-negative. -/
theorem round2_nonneg (q : ℚ) (h : 0 ≤ q) : 0 ≤ round2 q := by
  have h100 : (0:ℚ) ≤ q * 100 := by positivity
  have hf : (0:ℤ) ≤ ⌊q * 100⌋ := Int.floor_nonneg.mpr h100
  simp only [round2, roundHalfEven]
  split
  · exact div_nonneg (by exact_mod_cast hf) (by norm_num)
  · split
    · have h1 : (0:ℤ) ≤ ⌊q * 100⌋ + 1 := by omega
      exact div_nonneg (by exact_mod_cast h1) (by norm_num)
    · split
      · exact div_nonneg (by exact_mod_cast hf) (by norm_num)
      · have h1 : (0:ℤ) ≤ ⌊q * 100⌋ + 1 := by omega
        exact div_nonneg (by exact_mod_cast h1) (by norm_num)

/-- Rewriting one customer's balance to a non-negative value keeps all
balances non-negative. -/
theorem updateFirst_nonneg (cs : List Customer) (cid : String) (nb : ℚ)
    (h : ∀ c ∈ cs, 0 ≤ c.balance) (hnb : 0 ≤ nb) :
    ∀ c ∈ updateFirstCustomer cs cid nb, 0 ≤ c.balance := by
  induction cs with
  | nil => simp [updateFirstCustomer]
  | cons a rest ih =>
    intro c hc
    unfold updateFirstCustomer at hc
    by_cases ha : (a.id == cid) = true
    · rw [if_pos ha] at hc
      rcases List.mem_cons.mp hc with h1 | h1
      · subst h1; exact hnb
      · exact h c (List.mem_cons_of_mem a h1)
    · rw [if_neg ha] at hc
      rcases List.mem_cons.mp hc with h1 | h1
      · rw [h1]; exact h a (List.mem_cons_self a rest)
      · exact ih (fun x hx => h x (List.mem_cons_of_mem a hx)) c h1

/-- `topup` preserves non-negativity of all balances. -/
theorem topup_preserves_nonneg (st : State) (cid : String) (amount : ℚ)
    (note : Option String) (h : balancesNonneg st) :
    balancesNonneg (topup st cid amount note).1 := by
  unfold topup
  by_cases ha : amount ≤ 0
  · simpa [ha] using h
  · rcases hc : findCustomer st cid with _ | cust
    · simpa [ha, hc] using h
    · have hcb : 0 ≤ cust.balance :=
        h cust (List.mem_of_find?_eq_some hc)
      have hnb : 0 ≤ cust.balance + amount := by linarith [not_le.mp ha]
      simp only [ha, hc, if_neg, not_false_eq_true]
      intro c hcmem
      exact updateFirst_nonneg st.customers cid (cust.balance + amount) h hnb c hcmem

/-- `confirm_dispense` preserves non-negativity of all balances (on the
write paths the new balance is `round2 (balance - total)` with
`total ≤ balance`). -/
theorem confirm_preserves_nonneg (st : State) (now : ℕ) (tok : String)
    (liters : ℚ) (grade : String) (h : balancesNonneg st) :
    balancesNonneg (confirm_dispense st now tok liters grade).1 := by
  unfold confirm_dispense
  rcases hs : findSession st tok with _ | ps
  · simpa using h
  by_cases hu : ps.used = true
  · simpa [hs, hu] using h
  by_cases he : ps.expires_at < now
  · simpa [hs, hu, he] using h
  rcases hc : findCustomer st ps.customer_id with _ | cust
  · simpa [hs, hu, he, hc] using h
  rcases hp : FUEL_PRICES grade with _ | price
  · simpa [hs, hu, he, hc, hp] using h
  by_cases hb : cust.balance < round2 (liters * price)
  · simpa [hs, hu, he, hc, hp, hb] using h
  have hnb : 0 ≤ round2 (cust.balance - round2 (liters * price)) :=
    round2_nonneg _ (by linarith [not_lt.mp hb])
  by_cases hv : 0 < liters ∧ 0 < price ∧ 0 < round2 (liters * price)
  · simp only [hs, hu, he, hc, hp, hb, hv, if_true, if_false, if_pos, if_neg,
      not_false_eq_true, Bool.false_eq_true, ite_false, ite_true]
    intro c hcmem
    exact updateFirst_nonneg st.customers ps.customer_id _ h hnb c hcmem
  · simp only [hs, hu, he, hc, hp, hb, hv, if_true, if_false, if_pos, if_neg,
      not_false_eq_true, Bool.false_eq_true, ite_false, ite_true]
    intro c hcmem
    exact updateFirst_nonneg st.customers ps.customer_id _ h hnb c hcmem

/-! Claim theorems. -/

/-- C1: presenting the same token to `Confirm` twice sequentially yields
exactly one successful response and exactly one `FuelTransaction`: whenever
a first confirm of a token succeeds (landing in state `st1`), a second
confirm of the same token — at any later time, with any liters and grade —
fails with "Session already used" and changes nothing, and `st1` holds
exactly one more `FuelTransaction` than the state before the first call. -/
theorem confirm_replay (st st1 : State) (now1 now2 : ℕ) (tok : String)
    (liters liters2 : ℚ) (grade grade2 : String) (r : ConfirmResult)
    (h : confirm_dispense st now1 tok liters grade = (st1, Resp.ok r)) :
    confirm_dispense st1 now2 tok liters2 grade2 =
      (st1, Resp.httpError 400 "Session already used") ∧
    st1.fueltransactions.length = st.fueltransactions.length + 1 := by
  rcases hs : findSession st tok with _ | ps
  · simp [confirm_dispense, hs] at h
  by_cases hu : ps.used = true
  · simp [confirm_dispense, hs, hu] at h
  by_cases he : ps.expires_at < now1
  · simp [confirm_dispense, hs, hu, he] at h
  rcases hc : findCustomer st ps.customer_id with _ | cust
  · simp [confirm_dispense, hs, hu, he, hc] at h
  rcases hp : FUEL_PRICES grade with _ | price
  · simp [confirm_dispense, hs, hu, he, hc, hp] at h
  by_cases hb : cust.balance < round2 (liters * price)
  · simp [confirm_dispense, hs, hu, he, hc, hp, hb] at h
  by_cases hv : 0 < liters ∧ 0 < price ∧ 0 < round2 (liters * price)
  · simp only [confirm_dispense, hs, hu, he, hc, hp, hb, hv, if_true, if_false,
      if_pos, if_neg, not_false_eq_true, Bool.false_eq_true, ite_false, ite_true] at h
    rw [Prod.mk.injEq] at h
    obtain ⟨hst1, hr⟩ := h
    constructor
    · apply confirm_used_rejected
      · rw [← hst1]
        exact findSession_consume st.pumpsessions tok ps hs
      · rfl
    · rw [← hst1]
      simp
  · simp [confirm_dispense, hs, hu, he, hc, hp, hb, hv] at h

/-- Witness for C1: in `baseState` the first confirm of token "tokA"
succeeds, and then the second confirm is rejected with "Session already
used" while exactly one transaction was recorded. -/
theorem confirm_replay_witness :
    confirm_dispense afterState 600 "tokA" 10 "G91" =
      (afterState, Resp.httpError 400 "Session already used") ∧
    afterState.fueltransactions.length = baseState.fueltransactions.length + 1 :=
  confirm_replay baseState afterState 500 600 "tokA" 10 10 "G91" "G91"
    ⟨"cust1", 141/5, 109/5, "G91", 10, 109/50, "RX0"⟩ (by
      simp only [confirm_dispense, baseState, afterState, findSession, findCustomer,
        alice, sessA, FUEL_PRICES, List.find?, updateFirstCustomer, consumeFirstSession]
      norm_num [round2, roundHalfEven]
      rfl)

/-- C2: when the computed total `round(liters * price, 2)` strictly exceeds
the customer's balance, `confirm_dispense` fails with "Insufficient
balance" and the whole state is unchanged — balance keeps its prior value,
no `FuelTransaction` is created, and the session stays unused. -/
theorem confirm_insufficient (st : State) (now : ℕ) (tok : String)
    (liters : ℚ) (grade : String) (ps : PumpSession) (cust : Customer) (price : ℚ)
    (hs : findSession st tok = some ps) (hu : ps.used = false)
    (he : ¬ ps.expires_at < now)
    (hc : findCustomer st ps.customer_id = some cust)
    (hp : FUEL_PRICES grade = some price)
    (hb : cust.balance < round2 (liters * price)) :
    confirm_dispense st now tok liters grade =
      (st, Resp.httpError 400 "Insufficient balance") := by
  simp [confirm_dispense, hs, hu, he, hc, hp, hb]

/-- Witness for C2: balance 5.00 cannot cover 10 liters of G91 (21.80);
the confirm fails with "Insufficient balance" and the state is unchanged. -/
theorem confirm_insufficient_witness :
    poorCustomer.balance < round2 (10 * (218/100)) ∧
    confirm_dispense poorState 500 "tokP" 10 "G91" =
      (poorState, Resp.httpError 400 "Insufficient balance") :=
  ⟨by norm_num [poorCustomer, round2, roundHalfEven],
   confirm_insufficient poorState 500 "tokP" 10 "G91" sessP poorCustomer (218/100)
     rfl rfl (by decide) rfl rfl
     (by norm_num [poorCustomer, round2, roundHalfEven])⟩

/-- C3: if every customer balance starts non-negative, it stays
non-negative after any sequential run of Credit (`topup`) and Confirm
(`confirm_dispense`) operations. -/
theorem balances_nonneg_invariant (st : State) (ops : List Op)
    (h : balancesNonneg st) : balancesNonneg (ops.foldl applyOp st) := by
  induction ops generalizing st with
  | nil => simpa using h
  | cons op rest ih =>
    simp only [List.foldl_cons]
    apply ih
    cases op with
    | credit cid amount note => exact topup_preserves_nonneg st cid amount note h
    | confirm now tok liters grade =>
      exact confirm_preserves_nonneg st now tok liters grade h

/-- Witness for C3: `baseState` has all balances non-negative, and after a
top-up of 20 followed by a 10-liter G91 confirmation they still are. -/
theorem balances_nonneg_invariant_witness :
    balancesNonneg baseState ∧ balancesNonneg (c3Ops.foldl applyOp baseState) :=
  ⟨by norm_num [balancesNonneg, baseState, alice],
   balances_nonneg_invariant baseState c3Ops
     (by norm_num [balancesNonneg, baseState, alice])⟩

/-- C4: with balance 50.00 and a valid unexpired unused session,
`Confirm(token, "G91", 10)` succeeds with total 21.80 (= 109/5) and new
balance 28.20 (= 141/5), marks the session used, and records exactly one
`FuelTransaction` with status `confirmed`. -/
theorem confirm_scenario_g91 :
    confirm_dispense baseState 500 "tokA" 10 "G91" =
      (⟨[{ alice with balance := 141/5 }], [],
        [⟨"cust1", "G91", 10, 109/50, 109/5, "pump1", "confirmed", "RX0"⟩],
        [{ sessA with used := true }]⟩,
       Resp.ok ⟨"cust1", 141/5, 109/5, "G91", 10, 109/50, "RX0"⟩) := by
  simp only [confirm_dispense, baseState, findSession, findCustomer, alice, sessA,
    FUEL_PRICES, List.find?, updateFirstCustomer, consumeFirstSession]
  norm_num [round2, roundHalfEven]
  rfl

/-- C5: evaluation at the failing input.  `confirm_dispense` never checks
`liters > 0`: with `liters = -5` on a valid session the total `-10.90`
passes the balance check, the balance is rewritten from 50 to 60.90
(increased!), and only then does the pydantic `liters > 0` constraint of
`FuelTransaction` raise — a 500 error after the state change, not an
`InvalidVolume` rejection before it. -/
theorem confirm_negative_liters_eval :
    confirm_dispense baseState 500 "tokA" (-5) "G91" =
      (⟨[{ alice with balance := 609/10 }], [], [], [sessA]⟩,
       Resp.validationError) := by
  simp only [confirm_dispense, baseState, findSession, findCustomer, alice, sessA,
    FUEL_PRICES, List.find?, updateFirstCustomer]
  norm_num [round2, roundHalfEven]

/-- C6 counterexample: a never-used session presented exactly at its expiry
instant (`now = expires_at`) is NOT rejected as expired — the source's check
is the strict `expires_at < now`, so the call goes through and succeeds. -/
theorem confirm_expiry_boundary_counterexample :
    sessAtBoundary.expires_at ≤ 2000000 ∧ sessAtBoundary.used = false ∧
    (confirm_dispense boundaryState 2000000 "tokE" 10 "G91").2 ≠
      Resp.httpError 400 "Session expired" := by
  simp only [confirm_dispense, boundaryState, findSession, findCustomer, alice,
    sessAtBoundary, FUEL_PRICES, List.find?, updateFirstCustomer, consumeFirstSession]
  norm_num [round2, roundHalfEven]
  simp

/-- C7 counterexample: `start_pump_session` only checks that the customer
exists (`_customer_or_404`), never the `active` flag: for the deactivated
customer `bob` it still returns a token and stores a `PumpSession`. -/
theorem start_session_inactive_counterexample :
    bob.active = false ∧
    start_pump_session inactiveState 0 "tokN" "cust2" "pump9" =
      (⟨[bob], [], [], [⟨"tokN", "cust2", "pump9", 300000000, false⟩]⟩,
       Resp.ok ⟨"tokN", 300⟩) := by
  simp only [start_pump_session, inactiveState, findCustomer, bob, List.find?]
  norm_num

/-- C8: evaluation at the failing input.  Receipt numbers are
`"RX" + str(int(timestamp))`, second-granular: two distinct successful
confirmations at 0.5 s and 0.9 s of the same epoch second both record the
receipt number `"RX0"` — they collide. -/
theorem receipt_collision_same_second_eval :
    confirm_dispense twoSessState 500000 "tokA" 10 "G91" =
      (midState, Resp.ok ⟨"cust1", 141/5, 109/5, "G91", 10, 109/50, "RX0"⟩) ∧
    confirm_dispense midState 900000 "tokB" 5 "G91" =
      (⟨[{ alice with balance := 173/10 }], [],
        [⟨"cust1", "G91", 10, 109/50, 109/5, "pump1", "confirmed", "RX0"⟩,
         ⟨"cust1", "G91", 5, 109/50, 109/10, "pump2", "confirmed", "RX0"⟩],
        [{ sessA with used := true }, { sessB with used := true }]⟩,
       Resp.ok ⟨"cust1", 173/10, 109/10, "G91", 5, 109/50, "RX0"⟩) := by
  constructor
  · simp [confirm_dispense, twoSessState, midState, findSession, findCustomer, alice,
      sessA, sessB, FUEL_PRICES, List.find?, updateFirstCustomer, consumeFirstSession]
    norm_num [round2, roundHalfEven]
    rfl
  · simp [confirm_dispense, twoSessState, midState, findSession, findCustomer, alice,
      sessA, sessB, FUEL_PRICES, List.find?, updateFirstCustomer, consumeFirstSession]
    norm_num [round2, roundHalfEven]
    rfl

/-- C9 counterexample: with balance 50.00 and grade `"G91"` priced 2.18,
`calc_liters` does not return 22.93 — `round(50/2.18, 2)` is 22.94, since
`50/2.18 = 22.9357…` rounds up at the third decimal. -/
theorem calc_liters_scenario_counterexample :
    (calc_liters baseState "cust1" "G91").2 ≠
      Resp.ok ⟨"G91", 109/50, 2293/100⟩ := by
  simp only [calc_liters, baseState, findCustomer, alice, FUEL_PRICES, List.find?]
  norm_num [round2, roundHalfEven]

/-- C9 (amended): with balance 50.00 and grade `"G91"` priced 2.18,
`calc_liters` returns `max_liters = 22.94` (= 1147/50), i.e. 50/2.18
rounded to 2 decimals. -/
theorem calc_liters_scenario_g91 :
    calc_liters baseState "cust1" "G91" =
      (baseState, Resp.ok ⟨"G91", 109/50, 1147/50⟩) := by
  simp only [calc_liters, baseState, findCustomer, alice, FUEL_PRICES, List.find?]
  norm_num [round2, roundHalfEven]

/-- C10: `calc_liters` never mutates any state — whatever the outcome
(success, unknown customer, or invalid grade), the state it returns is the
input state, so every balance and every stored record is unchanged. -/
theorem calc_liters_no_mutation (st : State) (cid grade : String) :
    (calc_liters st cid grade).1 = st := by
  unfold calc_liters
  rcases hc : findCustomer st cid with _ | cust
  · rfl
  · rcases hp : FUEL_PRICES grade with _ | price <;> rfl


/-- C6 (amended): a never-used session presented strictly after its expiry
instant (`expires_at < now`; the source checks `expires_at < datetime.now()`)
fails with "Session expired" and the state is unchanged. -/
theorem confirm_expired_strict (st : State) (now : ℕ) (tok : String) (liters : ℚ)
    (grade : String) (ps : PumpSession) (hs : findSession st tok = some ps)
    (hu : ps.used = false) (he : ps.expires_at < now) :
    confirm_dispense st now tok liters grade =
      (st, Resp.httpError 400 "Session expired") := by
  simp [confirm_dispense, hs, hu, he]

/-- Witness for C6 (amended): the boundary session presented 1 s after its
expiry instant is rejected as expired. -/
theorem confirm_expired_strict_witness :
    sessAtBoundary.used = false ∧ sessAtBoundary.expires_at < 3000000 ∧
    confirm_dispense boundaryState 3000000 "tokE" 10 "G91" =
      (boundaryState, Resp.httpError 400 "Session expired") :=
  ⟨rfl, by decide,
   confirm_expired_strict boundaryState 3000000 "tokE" 10 "G91" sessAtBoundary
     rfl rfl (by decide)⟩

/-- C7 (amended): `start_pump_session` requires only that the customer
exist; whenever the id lookup succeeds — whatever the customer's `active`
flag — it returns the token and appends a `PumpSession` expiring in 300 s. -/
theorem start_session_exists_only (st : State) (now : ℕ) (tok cid pid : String)
    (c : Customer) (hc : findCustomer st cid = some c) :
    start_pump_session st now tok cid pid =
      (⟨st.customers, st.creditevents, st.fueltransactions,
        st.pumpsessions ++ [⟨tok, cid, pid, now + 300 * 1000000, false⟩]⟩,
       Resp.ok ⟨tok, 300⟩) := by
  simp [start_pump_session, hc]

/-- Witness for C7 (amended): the inactive customer `bob` exists, so
issuing a session for him succeeds and stores the session. -/
theorem start_session_exists_only_witness :
    findCustomer inactiveState "cust2" = some bob ∧
    start_pump_session inactiveState 5 "tokM" "cust2" "pump3" =
      (⟨inactiveState.customers, inactiveState.creditevents,
        inactiveState.fueltransactions,
        inactiveState.pumpsessions ++
          [⟨"tokM", "cust2", "pump3", 5 + 300 * 1000000, false⟩]⟩,
       Resp.ok ⟨"tokM", 300⟩) :=
  ⟨rfl, start_session_exists_only inactiveState 5 "tokM" "cust2" "pump3" bob rfl⟩

end FuelCredit
